import Mathlib

/-!
Verification development for the `nominatim` Go client library.

The development shallowly embeds the two cores of the repository:

* the query canonicalizer (`SearchQuery.buildQueryString` in the search
  source file and `ReverseQuery.buildQueryString` in `reverse.go`), modelled
  over an association-list embedding of Go's `url.Values`;
* the cancellable call executor and response classifier used by
  `defaultClient.Search`, `defaultClient.Reverse` and
  `defaultClient.CheckStatus`: each operation spawns one goroutine that
  deposits into a pair of capacity-1 channels and then performs a single
  three-way `select` over the result channel, the error channel and
  `ctx.Done()`.  The goroutine body after the HTTP call is a pure function
  of the transport outcome and of the JSON-decode outcome, so it is embedded
  as a function producing the ordered list of channel sends it performs; the
  `select` is embedded as a nondeterministic choice (a `Sched` value records
  how many sends completed before the select resolved and which ready case
  the Go runtime picked).
-/

namespace Nominatim

/-! ## Constants (from the search source file) -/

def defaultFormat : String := "jsonv2"

def endpointSearch : String := "search"

def endpointReverse : String := "reverse"

def endpointStatus : String := "status"

def keyAddressDetails : String := "addressdetails"

def keyExtraTags : String := "extratags"

def keyNameDetails : String := "namedetails"

def keyAcceptLanguage : String := "accept-language"

def keyExcludePlaces : String := "exclude_place_ids"

def keyFreeFormQuery : String := "q"

def keyStreet : String := "street"

def keyCity : String := "city"

def keyCounty : String := "county"

def keyState : String := "state"

def keyCountry : String := "country"

def keyPostalCode : String := "postalcode"

def keyLimit : String := "limit"

def keyLatitude : String := "lat"

def keyLongitude : String := "lon"

def keyFormat : String := "format"

/-! ## Query data model (from the search source file and `reverse.go`) -/

/-- SearchStructuredQuery holds parameters used to perform a structured query. -/
structure SearchStructuredQuery where
  Street : String
  City : String
  County : String
  State : String
  Country : String
  PostalCode : String

/-- SearchQuery holds the parameters needed to perform the search.  The Go
struct embeds `SearchStructuredQuery`; the embedding is modelled with
`extends`, so field access `q.Street` works as in Go.  Go `int` is modelled
as `Int` (no arithmetic here can overflow a 64-bit int). -/
structure SearchQuery extends SearchStructuredQuery where
  FreeFormQuery : String
  AddressDetails : Bool
  ExtraTags : Bool
  NameDetails : Bool
  AcceptLanguage : List String
  ExcludedPlaces : List String
  Limit : Int

/-- NewSearchQuery creates a SearchQuery with default values (Go zero values
for every field not set by the constructor body). -/
def NewSearchQuery : SearchQuery :=
  ⟨⟨"", "", "", "", "", ""⟩, "", true, false, false, ["en"], [], 10⟩

/-- ReverseQuery holds the parameters needed to perform the reverse lookup
(from `reverse.go`). -/
structure ReverseQuery where
  Latitude : String
  Longitude : String
  AddressDetails : Bool
  ExtraTags : Bool
  NameDetails : Bool
  AcceptLanguage : List String

/-- NewReverseQuery creates a ReverseQuery with default values and the given
coordinates (from `reverse.go`). -/
def NewReverseQuery (latitude longitude : String) : ReverseQuery :=
  ⟨latitude, longitude, true, false, false, ["en"]⟩

/-! ## Model of Go `url.Values`

Go's `url.Values` is a map from keys to value lists; the code only ever uses
`Set` (which replaces the whole entry for a key with a single value) and
`Encode` (which sorts by key and percent-encodes).  The map is modelled as an
association list in which `set` removes any previous binding of the key. -/

def Values : Type := List (String × String)

/-- Values.set models `url.Values.Set`: it replaces any existing binding of
the key with the single given value. -/
def Values.set (vs : Values) (k v : String) : Values :=
  vs.filter (fun p => p.1 != k) ++ [(k, v)]

/-- Values.get looks up the value bound to a key, `none` when the key is
absent (models reading `v[key]` from the Go map). -/
def Values.get : Values → String → Option String
  | [], _ => none
  | (k1, v) :: rest, k => if k1 = k then some v else Values.get rest k

/-! ## Query canonicalization (translated line by line from the source) -/

/-- SearchQuery.buildQueryValues is the body of the Go method
`SearchQuery.buildQueryString` up to (but not including) the final
`queryStr.Encode()` call: the sequence of `url.Values.Set` calls, translated
conditional-by-conditional from the source. -/
def SearchQuery.buildQueryValues (q : SearchQuery) : Values :=
  let queryStr : Values := []
  let queryStr := queryStr.set keyFormat defaultFormat
  let queryStr :=
    if q.FreeFormQuery ≠ "" then queryStr.set keyFreeFormQuery q.FreeFormQuery else queryStr
  let queryStr :=
    if q.FreeFormQuery = "" ∧ q.Street ≠ "" then queryStr.set keyStreet q.Street else queryStr
  let queryStr :=
    if q.FreeFormQuery = "" ∧ q.City ≠ "" then queryStr.set keyCity q.City else queryStr
  let queryStr :=
    if q.FreeFormQuery = "" ∧ q.County ≠ "" then queryStr.set keyCounty q.County else queryStr
  let queryStr :=
    if q.FreeFormQuery = "" ∧ q.State ≠ "" then queryStr.set keyState q.State else queryStr
  let queryStr :=
    if q.FreeFormQuery = "" ∧ q.Country ≠ "" then queryStr.set keyCountry q.Country else queryStr
  let queryStr :=
    if q.FreeFormQuery = "" ∧ q.PostalCode ≠ "" then
      queryStr.set keyPostalCode q.PostalCode
    else queryStr
  let queryStr := queryStr.set keyAddressDetails ("1")
  let queryStr := if !q.AddressDetails then queryStr.set keyAddressDetails ("0") else queryStr
  let queryStr := queryStr.set keyExtraTags ("1")
  let queryStr := if !q.ExtraTags then queryStr.set keyExtraTags ("0") else queryStr
  let queryStr := queryStr.set keyNameDetails ("1")
  let queryStr := if !q.NameDetails then queryStr.set keyNameDetails ("0") else queryStr
  let queryStr :=
    if q.AcceptLanguage.length > 0 then
      queryStr.set keyAcceptLanguage (String.intercalate (",") q.AcceptLanguage)
    else queryStr
  let queryStr :=
    if q.ExcludedPlaces.length > 0 then
      queryStr.set keyExcludePlaces (String.intercalate (",") q.ExcludedPlaces)
    else queryStr
  let queryStr :=
    if q.Limit ≠ 0 then
      let limit := q.Limit
      let limit := if limit < 0 then 10 else limit
      let limit := if limit > 50 then 50 else limit
      queryStr.set keyLimit (toString limit)
    else queryStr
  queryStr

/-- ReverseQuery.buildQueryValues is the body of the Go method
`ReverseQuery.buildQueryString` in `reverse.go` up to the final
`queryStr.Encode()` call. -/
def ReverseQuery.buildQueryValues (q : ReverseQuery) : Values :=
  let queryStr : Values := []
  let queryStr := queryStr.set keyFormat defaultFormat
  let queryStr := queryStr.set keyLatitude q.Latitude
  let queryStr := queryStr.set keyLongitude q.Longitude
  let queryStr := queryStr.set keyAddressDetails ("1")
  let queryStr := if !q.AddressDetails then queryStr.set keyAddressDetails ("0") else queryStr
  let queryStr := queryStr.set keyExtraTags ("1")
  let queryStr := if !q.ExtraTags then queryStr.set keyExtraTags ("0") else queryStr
  let queryStr := queryStr.set keyNameDetails ("1")
  let queryStr := if !q.NameDetails then queryStr.set keyNameDetails ("0") else queryStr
  let queryStr :=
    if q.AcceptLanguage.length > 0 then
      queryStr.set keyAcceptLanguage (String.intercalate (",") q.AcceptLanguage)
    else queryStr
  queryStr

/-! ## `url.Values.Encode` model: key-sorted, percent-encoded output -/

/-- isUnreservedByte holds for the bytes Go's `url.QueryEscape` leaves
unescaped: ASCII letters, digits, and the marks minus, period, underscore,
tilde. -/
def isUnreservedByte (n : Nat) : Bool :=
  (decide (48 ≤ n) && decide (n ≤ 57)) ||
  (decide (65 ≤ n) && decide (n ≤ 90)) ||
  (decide (97 ≤ n) && decide (n ≤ 122)) ||
  n == 45 || n == 46 || n == 95 || n == 126

/-- upperHexDigit gives the uppercase hexadecimal digit for a value below
16, as used by Go's percent-encoding. -/
def upperHexDigit (n : Nat) : Char :=
  if n < 10 then Char.ofNat (48 + n) else Char.ofNat (55 + n)

/-- escapeByte encodes one byte the way Go's `url.QueryEscape` does inside a
query component: space becomes plus, unreserved bytes pass through, anything
else becomes a percent escape. -/
def escapeByte (b : UInt8) : String :=
  if b.toNat == 32 then "+"
  else if isUnreservedByte b.toNat then String.singleton (Char.ofNat b.toNat)
  else
    String.singleton ('%') ++ String.singleton (upperHexDigit (b.toNat / 16)) ++
      String.singleton (upperHexDigit (b.toNat % 16))

/-- queryEscape models Go's `url.QueryEscape`, operating on the UTF-8 bytes
of the string. -/
def queryEscape (s : String) : String :=
  String.join ((String.toUTF8 s).toList.map escapeByte)

/-- insertPairByKey inserts a pair into a key-sorted association list,
keeping it sorted by key (models the `sort.Strings(keys)` step of
`url.Values.Encode`). -/
def insertPairByKey (p : String × String) : Values → Values
  | [] => [p]
  | q :: rest =>
    if (compare p.1 q.1).isLE then p :: q :: rest else q :: insertPairByKey p rest

/-- sortValuesByKey sorts an association list by key via insertion. -/
def sortValuesByKey (vs : Values) : Values :=
  vs.foldr insertPairByKey []

/-- Values.encode models `url.Values.Encode`: pairs sorted by key, each
rendered as escaped key, equals sign, escaped value, joined with ampersands. -/
def Values.encode (vs : Values) : String :=
  String.intercalate ("&")
    ((sortValuesByKey vs).map (fun p => queryEscape p.1 ++ "=" ++ queryEscape p.2))

/-- SearchQuery.buildQueryString is the full Go method: build the values,
then `Encode`. -/
def SearchQuery.buildQueryString (q : SearchQuery) : String :=
  (q.buildQueryValues).encode

/-- ReverseQuery.buildQueryString is the full Go method from `reverse.go`. -/
def ReverseQuery.buildQueryString (q : ReverseQuery) : String :=
  (q.buildQueryValues).encode

/-! ## Response data model (from the search source file) -/

/-- Error is the `nominatim.Error` struct: a service-reported error with a
numeric code and a message. -/
structure Error where
  Code : Int
  Message : String

/-- Address holds address information from a result. -/
structure Address where
  City : String
  CityDistrict : String
  Construction : String
  Continent : String
  Country : String
  CountryCode : String
  HouseNumber : String
  Neighbourhood : String
  Postcode : String
  PublicBuilding : String
  State : String
  Suburb : String

/-- Address.zero is the Go zero value of `Address`. -/
def Address.zero : Address :=
  ⟨"", "", "", "", "", "", "", "", "", "", "", ""⟩

/-- Result holds information from a specific location.  The Go field `Type`
is renamed `Type1` because `Type` is a Lean keyword; `Importance float64` is
modelled as `Float` (no claim computes with it). -/
structure Result where
  PlaceId : Int
  Licence : String
  OsmType : String
  OsmId : Int
  Lat : String
  Lon : String
  PlaceRank : Int
  Category : String
  Type1 : String
  Importance : Float
  AddressType : String
  DisplayName : String
  Name : String
  Address : Address
  BoundingBox : List String

/-- Result.zero is the Go zero value `Result{}`. -/
def Result.zero : Result :=
  ⟨0, "", "", 0, "", "", 0, "", "", 0, "", "", "", Address.zero, []⟩

/-- Status holds information from the Nominatim API server.  The Go field
`DataUpdated time.Time` is modelled as an opaque string timestamp. -/
structure Status where
  Status1 : Int
  Message : String
  DataUpdated : String
  SoftwareVersion : String
  DatabaseVersion : String

/-- Status.zero is the Go zero value `Status{}`. -/
def Status.zero : Status :=
  ⟨0, "", "", "", ""⟩

/-! ## Cancellable call executor

Each public operation makes two capacity-1 channels, spawns one goroutine
that performs the HTTP GET, classifies the response and deposits into the
channels, and then executes a single three-way `select` over the result
channel, the error channel and `ctx.Done()`.

The goroutine body after the `Get` call is a pure function of (a) the
transport outcome and (b) the JSON-decode outcome, so it is embedded as a
function from those outcomes to the ordered list of channel sends the
goroutine attempts.  The decode outcome records both the error value
returned by `json.Decode` (if any) and the state the decode target was left
in (Go's decoder may partially populate the target before failing). -/

/-- CtxError distinguishes the two values `ctx.Err()` can take once the
context is done. -/
inductive CtxError where
  | canceled
  | deadlineExceeded

/-- GoError models the `error` values that flow through an operation:
a transport failure from `client.Get`, a decode failure from
`json.Decode`, a service-reported `nominatim.Error`, or the context's own
error returned by `ctx.Err()`. -/
inductive GoError where
  | transport : String → GoError
  | decode : String → GoError
  | service : Error → GoError
  | ctxErr : CtxError → GoError

/-- Ctx models the caller-supplied `context.Context` at the moment the
select resolves: whether `ctx.Done()` is closed, and which error
`ctx.Err()` reports in that case. -/
structure Ctx where
  isDone : Bool
  ctxErrVal : CtxError

/-- Send is one channel deposit attempted by the goroutine: either a value
on the result channel or an error on the error channel. -/
inductive Send (ρ : Type) where
  | res : ρ → Send ρ
  | err : GoError → Send ρ

/-- Choice names the three cases of the Go `select` statement. -/
inductive Choice where
  | res
  | err
  | ctxDone

/-- Sched records the scheduling nondeterminism of one invocation: how many
of the goroutine's sends completed before the select resolved, and which
ready case the runtime picked (Go picks uniformly among ready cases). -/
structure Sched where
  k : Nat
  pick : Choice

/-- firstRes is the first value deposited on the result channel (the one a
single receive observes, channels being FIFO). -/
def firstRes {ρ : Type} : List (Send ρ) → Option ρ
  | [] => none
  | Send.res v :: _ => some v
  | Send.err _ :: rest => firstRes rest

/-- firstErr is the first error deposited on the error channel. -/
def firstErr {ρ : Type} : List (Send ρ) → Option GoError
  | [] => none
  | Send.err e :: _ => some e
  | Send.res _ :: rest => firstErr rest

/-- maxUnread is the number of sends the goroutine can complete while no
receive happens: both channels have capacity 1, so a second send to an
already-full channel blocks.  The two flags say whether the result and
error buffers are already full. -/
def maxUnread {ρ : Type} : List (Send ρ) → Bool → Bool → Nat
  | [], _, _ => 0
  | Send.res _ :: rest, rFull, eFull =>
    if rFull then 0 else 1 + maxUnread rest true eFull
  | Send.err _ :: rest, rFull, eFull =>
    if eFull then 0 else 1 + maxUnread rest rFull true

/-- sendsCompleteUnread decides whether the goroutine can run to completion
when nothing ever receives (the situation after cancellation already won the
race): it fails exactly when some send hits an already-full capacity-1
buffer and therefore blocks forever. -/
def sendsCompleteUnread {ρ : Type} : List (Send ρ) → Bool → Bool → Bool
  | [], _, _ => true
  | Send.res _ :: rest, rFull, eFull => !rFull && sendsCompleteUnread rest true eFull
  | Send.err _ :: rest, rFull, eFull => !eFull && sendsCompleteUnread rest rFull true

/-- selectReturn is the three-way `select` every operation ends with.  Given
the goroutine's send list, the operation's zero return value, the context
state and a schedule, it returns the Go `(value, error)` pair the operation
returns, or `none` when the schedule is impossible (more sends completed
than capacity-1 channels allow with no reader, or the picked case was not
ready). -/
def selectReturn {ρ : Type} (sends : List (Send ρ)) (zero : ρ) (ctx : Ctx)
    (s : Sched) : Option (ρ × Option GoError) :=
  if s.k ≤ maxUnread sends false false then
    match s.pick with
    | Choice.res =>
      match firstRes (sends.take s.k) with
      | some v => some (v, none)
      | none => none
    | Choice.err =>
      match firstErr (sends.take s.k) with
      | some e => some (zero, some e)
      | none => none
    | Choice.ctxDone =>
      if ctx.isDone then some (zero, some (GoError.ctxErr ctx.ctxErrVal)) else none
  else none

/-! ## The three goroutine bodies

Each is translated statement by statement from the corresponding
`go func() { ... }()` literal.  Crucially, in the source the decode-error
branch `if err = json.NewDecoder(resp.Body).Decode(...); err != nil
{ errChan <- err }` has no `return`, and in `Reverse` the branch
`if result.Error.Code > 0 { errChan <- result.Error }` has no `return`
either; only the `Get`-error branch returns early.  The send lists below
reproduce exactly that control flow. -/

/-- SearchDecoded is the state after `json.NewDecoder(resp.Body).Decode(&results)`
in the Search goroutine: the error the decoder returned (if any) and the
contents of `results` afterwards (`make([]Result, 0)` before the call, so it
stays empty when decoding fails immediately). -/
structure SearchDecoded where
  decodeErr : Option String
  results : List Result

/-- searchSends is the ordered list of channel sends the Search goroutine
attempts, as a function of the transport outcome. -/
def searchSends (t : Except String SearchDecoded) : List (Send (List Result)) :=
  match t with
  | Except.error e => [Send.err (GoError.transport e)]
  | Except.ok d =>
    (match d.decodeErr with
     | some de => [Send.err (GoError.decode de)]
     | none => []) ++ [Send.res d.results]

/-- ReverseDecoded is the state after decoding into the anonymous struct
`struct { Result; Error Error }` in the Reverse goroutine: the decode error
(if any), the embedded `Result` field and the `Error` field as left by the
decoder (partial population is possible when decoding fails midway). -/
structure ReverseDecoded where
  decodeErr : Option String
  res : Result
  errObj : Error

/-- reverseSends is the ordered list of channel sends the Reverse goroutine
attempts: transport error (early return), else possibly a decode error,
then possibly the embedded service error when `result.Error.Code > 0`, then
always the result (the source has no `return` after the two error sends). -/
def reverseSends (t : Except String ReverseDecoded) : List (Send Result) :=
  match t with
  | Except.error e => [Send.err (GoError.transport e)]
  | Except.ok d =>
    (match d.decodeErr with
     | some de => [Send.err (GoError.decode de)]
     | none => []) ++
    (if d.errObj.Code > 0 then [Send.err (GoError.service d.errObj)] else []) ++
    [Send.res d.res]

/-- StatusDecoded is the state after decoding into `&Status{}` in the
CheckStatus goroutine. -/
structure StatusDecoded where
  decodeErr : Option String
  status : Status

/-- statusSends is the ordered list of channel sends the CheckStatus
goroutine attempts. -/
def statusSends (t : Except String StatusDecoded) : List (Send Status) :=
  match t with
  | Except.error e => [Send.err (GoError.transport e)]
  | Except.ok d =>
    (match d.decodeErr with
     | some de => [Send.err (GoError.decode de)]
     | none => []) ++ [Send.res d.status]

/-! ## The three public operations

Each operation is `selectReturn` applied to its goroutine's send list, its
zero return value (`nil` slice, `Result{}`, `Status{}`), the context, and a
schedule.  The transport-plus-decode outcome stands in for the HTTP
round trip; the query argument only determines the request URL and is kept
for signature fidelity. -/

/-- Search models `defaultClient.Search`: zero value on error is the `nil`
slice, modelled as the empty list. -/
def Search (_query : SearchQuery) (t : Except String SearchDecoded) (ctx : Ctx)
    (s : Sched) : Option (List Result × Option GoError) :=
  selectReturn (searchSends t) [] ctx s

/-- Reverse models `defaultClient.Reverse`: zero value on error is
`Result{}`. -/
def Reverse (_query : ReverseQuery) (t : Except String ReverseDecoded) (ctx : Ctx)
    (s : Sched) : Option (Result × Option GoError) :=
  selectReturn (reverseSends t) Result.zero ctx s

/-- CheckStatus models `defaultClient.CheckStatus`: zero value on error is
`Status{}`. -/
def CheckStatus (t : Except String StatusDecoded) (ctx : Ctx)
    (s : Sched) : Option (Status × Option GoError) :=
  selectReturn (statusSends t) Status.zero ctx s

/-- searchEndpoint mirrors the `fmt.Sprintf` building the Search request
URL. -/
def searchEndpoint (baseURL : String) (query : SearchQuery) : String :=
  baseURL ++ "/" ++ endpointSearch ++ "?" ++ query.buildQueryString

/-- reverseEndpoint mirrors the `fmt.Sprintf` building the Reverse request
URL. -/
def reverseEndpoint (baseURL : String) (query : ReverseQuery) : String :=
  baseURL ++ "/" ++ endpointReverse ++ "?" ++ query.buildQueryString

/-- statusEndpoint mirrors the fixed CheckStatus request URL. -/
def statusEndpoint (baseURL : String) : String :=
  baseURL ++ "/" ++ endpointStatus ++ "?format=json"

/-! ## Lemmas about the `url.Values` model -/

/-- Looking up the key just set yields the value set. -/
theorem Values.get_set_self (vs : Values) (k v : String) :
    (Values.set vs k v).get k = some v := by
  induction vs with
  | nil => simp [Values.set, Values.get]
  | cons p rest ih =>
    by_cases h : p.1 = k
    · simpa [Values.set, List.filter_cons, h] using ih
    · simpa [Values.set, List.filter_cons, h, Values.get] using ih

/-- Setting one key leaves lookups of any other key unchanged. -/
theorem Values.get_set_ne (vs : Values) (k v k1 : String) (h : k1 ≠ k) :
    (Values.set vs k v).get k1 = vs.get k1 := by
  induction vs with
  | nil => simp [Values.set, Values.get, Ne.symm h]
  | cons p rest ih =>
    obtain ⟨a, b⟩ := p
    by_cases hp : a = k
    · have hstep : Values.set ((a, b) :: rest) k v = Values.set rest k v := by
        simp [Values.set, List.filter_cons, hp]
      rw [hstep, ih]
      have hp1 : ¬ a = k1 := by rw [hp]; exact Ne.symm h
      simp [Values.get, hp1]
    · have hstep : Values.set ((a, b) :: rest) k v = (a, b) :: Values.set rest k v := by
        simp [Values.set, List.filter_cons, hp]
      rw [hstep]
      by_cases hk1 : a = k1
      · simp [Values.get, hk1]
      · simp [Values.get, hk1, ih]

/-- Lookup distributes over a conditional between two value sets. -/
theorem Values.get_ite (c : Prop) [Decidable c] (a b : Values) (k : String) :
    Values.get (if c then a else b) k = if c then a.get k else b.get k := by
  by_cases h : c <;> simp [h]

/-- Rendering the clamped default limit. -/
theorem toString_int_ten : toString (10 : Int) = "10" := rfl

/-- Rendering the clamped maximum limit. -/
theorem toString_int_fifty : toString (50 : Int) = "50" := rfl

/-- limit_emission computes the `limit` parameter of a canonicalized
SearchQuery as a single piecewise expression, by pushing the lookup through
every `Set` call of `buildQueryString`. -/
theorem limit_emission (q : SearchQuery) :
    (q.buildQueryValues).get keyLimit =
      if q.Limit = 0 then none
      else if q.Limit < 0 then some ("10")
      else if q.Limit ≤ 50 then some (toString q.Limit)
      else some ("50") := by
  by_cases h0 : q.Limit = 0
  · simp [SearchQuery.buildQueryValues, Values.get, Values.get_ite,
      Values.get_set_self, Values.get_set_ne, keyFormat, keyFreeFormQuery,
      keyStreet, keyCity, keyCounty, keyState, keyCountry, keyPostalCode,
      keyAddressDetails, keyExtraTags, keyNameDetails, keyAcceptLanguage,
      keyExcludePlaces, keyLimit, h0]
  · by_cases hneg : q.Limit < 0
    · simp [SearchQuery.buildQueryValues, Values.get, Values.get_ite,
        Values.get_set_self, Values.get_set_ne, keyFormat, keyFreeFormQuery,
        keyStreet, keyCity, keyCounty, keyState, keyCountry, keyPostalCode,
        keyAddressDetails, keyExtraTags, keyNameDetails, keyAcceptLanguage,
        keyExcludePlaces, keyLimit, h0, hneg, toString_int_ten]
    · by_cases h50 : q.Limit ≤ 50
      · have hgt : ¬ q.Limit > 50 := by omega
        simp [SearchQuery.buildQueryValues, Values.get, Values.get_ite,
          Values.get_set_self, Values.get_set_ne, keyFormat, keyFreeFormQuery,
          keyStreet, keyCity, keyCounty, keyState, keyCountry, keyPostalCode,
          keyAddressDetails, keyExtraTags, keyNameDetails, keyAcceptLanguage,
          keyExcludePlaces, keyLimit, h0, hneg, h50, hgt]
      · have hgt : q.Limit > 50 := by omega
        simp [SearchQuery.buildQueryValues, Values.get, Values.get_ite,
          Values.get_set_self, Values.get_set_ne, keyFormat, keyFreeFormQuery,
          keyStreet, keyCity, keyCounty, keyState, keyCountry, keyPostalCode,
          keyAddressDetails, keyExtraTags, keyNameDetails, keyAcceptLanguage,
          keyExcludePlaces, keyLimit, h0, hneg, h50, hgt, toString_int_fifty]

/-! ## Concrete queries used by witnesses and counterexamples -/

/-- qFreeAndStructured populates the free-form text and every structured
field at once. -/
def qFreeAndStructured : SearchQuery :=
  ⟨⟨"Baker Street", "London", "Greater London", "England", "UK", "NW1"⟩,
    "piazza navona", true, false, false, ["en"], [], 10⟩

/-- qLimitZero leaves the limit at the Go zero value. -/
def qLimitZero : SearchQuery :=
  ⟨⟨"", "", "", "", "", ""⟩, "lisbon", true, false, false, ["en"], [], 0⟩

/-- qLimitNeg uses a negative limit. -/
def qLimitNeg : SearchQuery :=
  ⟨⟨"", "", "", "", "", ""⟩, "lisbon", true, false, false, ["en"], [], -3⟩

/-- qLimitSmall uses an in-range limit. -/
def qLimitSmall : SearchQuery :=
  ⟨⟨"", "", "", "", "", ""⟩, "lisbon", true, false, false, ["en"], [], 7⟩

/-- qLimitBig uses an over-range limit. -/
def qLimitBig : SearchQuery :=
  ⟨⟨"", "", "", "", "", ""⟩, "lisbon", true, false, false, ["en"], [], 99⟩

/-! ## Claims about the query canonicalizer -/

/-- C5: for every SearchQuery whose free-form text is non-empty,
`buildQueryString` emits the free-form key with exactly that text and omits
all six structured-field keys, even when structured fields are populated. -/
theorem C5_freeform_overrides_structured (q : SearchQuery)
    (h : q.FreeFormQuery ≠ "") :
    (q.buildQueryValues).get keyFreeFormQuery = some q.FreeFormQuery ∧
    (q.buildQueryValues).get keyStreet = none ∧
    (q.buildQueryValues).get keyCity = none ∧
    (q.buildQueryValues).get keyCounty = none ∧
    (q.buildQueryValues).get keyState = none ∧
    (q.buildQueryValues).get keyCountry = none ∧
    (q.buildQueryValues).get keyPostalCode = none := by
  refine ⟨?_, ?_, ?_, ?_, ?_, ?_, ?_⟩ <;>
    simp [SearchQuery.buildQueryValues, Values.get, Values.get_ite,
      Values.get_set_self, Values.get_set_ne, keyFormat, keyFreeFormQuery,
      keyStreet, keyCity, keyCounty, keyState, keyCountry, keyPostalCode,
      keyAddressDetails, keyExtraTags, keyNameDetails, keyAcceptLanguage,
      keyExcludePlaces, keyLimit, h]

/-- C5 witness: the free-form/structured override at a query populating the
free-form text and all six structured fields. -/
theorem C5_witness :
    qFreeAndStructured.FreeFormQuery ≠ "" ∧
    ((qFreeAndStructured.buildQueryValues).get keyFreeFormQuery =
        some ("piazza navona") ∧
      (qFreeAndStructured.buildQueryValues).get keyStreet = none ∧
      (qFreeAndStructured.buildQueryValues).get keyCity = none ∧
      (qFreeAndStructured.buildQueryValues).get keyCounty = none ∧
      (qFreeAndStructured.buildQueryValues).get keyState = none ∧
      (qFreeAndStructured.buildQueryValues).get keyCountry = none ∧
      (qFreeAndStructured.buildQueryValues).get keyPostalCode = none) :=
  ⟨by decide, C5_freeform_overrides_structured qFreeAndStructured (by decide)⟩

/-- C6: the limit parameter is piecewise: zero limit omits the key, a
negative limit emits the default 10, an in-range limit is emitted verbatim,
and an over-range limit emits the maximum 50. -/
theorem C6_limit_piecewise (q : SearchQuery) :
    (q.buildQueryValues).get keyLimit =
      if q.Limit = 0 then none
      else if q.Limit < 0 then some ("10")
      else if q.Limit ≤ 50 then some (toString q.Limit)
      else some ("50") :=
  limit_emission q

/-- C7 counterexample: the claim says every limit value at most zero,
including zero itself, is remapped to the default 10 and emitted; but at the
zero value the code omits the limit key entirely. -/
theorem C7_counterexample :
    (qLimitZero.buildQueryValues).get keyLimit = none ∧
    (qLimitZero.buildQueryValues).get keyLimit ≠ some ("10") := by
  exact ⟨rfl, by decide⟩

/-- C7 amended: limits outside the valid range are silently remapped and
emitted — negative values become the default 10 and values above 50 become
the maximum 50 — while the zero value omits the limit key entirely instead
of being remapped. -/
theorem C7_amended_remap (q : SearchQuery) :
    (q.Limit < 0 → (q.buildQueryValues).get keyLimit = some ("10")) ∧
    (50 < q.Limit → (q.buildQueryValues).get keyLimit = some ("50")) ∧
    (q.Limit = 0 → (q.buildQueryValues).get keyLimit = none) := by
  refine ⟨fun h => ?_, fun h => ?_, fun h => ?_⟩
  · have h0 : ¬ q.Limit = 0 := by omega
    simp [limit_emission, h, h0]
  · have h0 : ¬ q.Limit = 0 := by omega
    have hneg : ¬ q.Limit < 0 := by omega
    have h50 : ¬ q.Limit ≤ 50 := by omega
    simp [limit_emission, h0, hneg, h50]
  · simp [limit_emission, h]

/-- C7 witness: the amended behavior at a negative, an over-range and a
zero limit. -/
theorem C7_witness :
    (qLimitNeg.buildQueryValues).get keyLimit = some ("10") ∧
    (qLimitBig.buildQueryValues).get keyLimit = some ("50") ∧
    (qLimitZero.buildQueryValues).get keyLimit = none :=
  ⟨(C7_amended_remap qLimitNeg).1 (by decide),
   (C7_amended_remap qLimitBig).2.1 (by decide),
   (C7_amended_remap qLimitZero).2.2 rfl⟩

/-- C8: for every SearchQuery and every ReverseQuery, the three boolean
modifiers are always emitted, with value `1` exactly when the flag is set
and `0` otherwise; none of them is ever omitted. -/
theorem C8_bool_modifiers_always_emitted :
    (∀ q : SearchQuery,
      (q.buildQueryValues).get keyAddressDetails =
          some (if q.AddressDetails then "1" else "0") ∧
      (q.buildQueryValues).get keyExtraTags =
          some (if q.ExtraTags then "1" else "0") ∧
      (q.buildQueryValues).get keyNameDetails =
          some (if q.NameDetails then "1" else "0")) ∧
    (∀ q : ReverseQuery,
      (q.buildQueryValues).get keyAddressDetails =
          some (if q.AddressDetails then "1" else "0") ∧
      (q.buildQueryValues).get keyExtraTags =
          some (if q.ExtraTags then "1" else "0") ∧
      (q.buildQueryValues).get keyNameDetails =
          some (if q.NameDetails then "1" else "0")) := by
  constructor
  · intro q
    refine ⟨?_, ?_, ?_⟩
    · cases h : q.AddressDetails <;>
        simp [SearchQuery.buildQueryValues, Values.get, Values.get_ite,
          Values.get_set_self, Values.get_set_ne, keyFormat, keyFreeFormQuery,
          keyStreet, keyCity, keyCounty, keyState, keyCountry, keyPostalCode,
          keyAddressDetails, keyExtraTags, keyNameDetails, keyAcceptLanguage,
          keyExcludePlaces, keyLimit, h]
    · cases h : q.ExtraTags <;>
        simp [SearchQuery.buildQueryValues, Values.get, Values.get_ite,
          Values.get_set_self, Values.get_set_ne, keyFormat, keyFreeFormQuery,
          keyStreet, keyCity, keyCounty, keyState, keyCountry, keyPostalCode,
          keyAddressDetails, keyExtraTags, keyNameDetails, keyAcceptLanguage,
          keyExcludePlaces, keyLimit, h]
    · cases h : q.NameDetails <;>
        simp [SearchQuery.buildQueryValues, Values.get, Values.get_ite,
          Values.get_set_self, Values.get_set_ne, keyFormat, keyFreeFormQuery,
          keyStreet, keyCity, keyCounty, keyState, keyCountry, keyPostalCode,
          keyAddressDetails, keyExtraTags, keyNameDetails, keyAcceptLanguage,
          keyExcludePlaces, keyLimit, h]
  · intro q
    refine ⟨?_, ?_, ?_⟩
    · cases h : q.AddressDetails <;>
        simp [ReverseQuery.buildQueryValues, Values.get, Values.get_ite,
          Values.get_set_self, Values.get_set_ne, keyFormat, keyLatitude,
          keyLongitude, keyAddressDetails, keyExtraTags, keyNameDetails,
          keyAcceptLanguage, h]
    · cases h : q.ExtraTags <;>
        simp [ReverseQuery.buildQueryValues, Values.get, Values.get_ite,
          Values.get_set_self, Values.get_set_ne, keyFormat, keyLatitude,
          keyLongitude, keyAddressDetails, keyExtraTags, keyNameDetails,
          keyAcceptLanguage, h]
    · cases h : q.NameDetails <;>
        simp [ReverseQuery.buildQueryValues, Values.get, Values.get_ite,
          Values.get_set_self, Values.get_set_ne, keyFormat, keyLatitude,
          keyLongitude, keyAddressDetails, keyExtraTags, keyNameDetails,
          keyAcceptLanguage, h]

/-! ## Lemmas about the executor model -/

/-- With no completed send, any resolved select outcome is the context's
own error: the result and error channels are empty, so only the
cancellation case can be ready. -/
theorem selectReturn_k_zero {ρ : Type} (sends : List (Send ρ)) (zero : ρ)
    (ctx : Ctx) (s : Sched) (hDone : ctx.isDone = true) (hk : s.k = 0) :
    selectReturn sends zero ctx s = none ∨
      selectReturn sends zero ctx s =
        some (zero, some (GoError.ctxErr ctx.ctxErrVal)) := by
  obtain ⟨k, pick⟩ := s
  simp only at hk
  subst hk
  cases pick with
  | res => left; simp [selectReturn, firstRes]
  | err => left; simp [selectReturn, firstErr]
  | ctxDone => right; simp [selectReturn, hDone]

/-- Every resolved select outcome carrying an error carries the operation's
zero value: the error case and the cancellation case of the source both
return the zero value next to the error. -/
theorem selectReturn_error_zero {ρ : Type} (sends : List (Send ρ)) (zero : ρ)
    (ctx : Ctx) (s : Sched) (v : ρ) (e : GoError)
    (h : selectReturn sends zero ctx s = some (v, some e)) : v = zero := by
  obtain ⟨k, pick⟩ := s
  by_cases hg : k ≤ maxUnread sends false false
  · cases pick with
    | res =>
      simp only [selectReturn, if_pos hg] at h
      cases hfr : firstRes (sends.take k) with
      | none => rw [hfr] at h; simp at h
      | some v1 => rw [hfr] at h; simp at h
    | err =>
      simp only [selectReturn, if_pos hg] at h
      cases hfe : firstErr (sends.take k) with
      | none => rw [hfe] at h; simp at h
      | some e1 =>
        rw [hfe] at h
        simp at h
        exact h.1.symm
    | ctxDone =>
      simp only [selectReturn, if_pos hg] at h
      cases hd : ctx.isDone with
      | false => rw [hd] at h; simp at h
      | true =>
        rw [hd] at h
        simp at h
        exact h.1.symm
  · simp only [selectReturn, if_neg hg] at h
    simp at h

/-! ## Concrete transport and decode outcomes -/

/-- transportRefused is a transport failure from `client.Get`. -/
def transportRefused : String := "connection refused"

/-- decodeObjectIntoSliceMsg is the error `json.Decode` reports when the
search body is a JSON object while the target is a slice of results (the
body of two braces). -/
def decodeObjectIntoSliceMsg : String :=
  "json: cannot unmarshal object into Go value of type []nominatim.Result"

/-- decodePlaceIdMsg is the error `json.Decode` reports when the reverse
body carries a string where the integer place id is expected; the decoder
fails only after already having populated the embedded error object. -/
def decodePlaceIdMsg : String :=
  "json: cannot unmarshal string into Go struct field .place_id of type int"

/-- noValueError is the service error with code 704 that the Nominatim
service embeds in a reverse response for an unresolvable coordinate pair. -/
def noValueError : Error := ⟨704, "No value found"⟩

/-- searchEmptyObjectBody is the decode outcome of a search response whose
body is a bare JSON object: `Decode` fails and `results` stays the empty
slice it was initialized to. -/
def searchEmptyObjectBody : SearchDecoded := ⟨some decodeObjectIntoSliceMsg, []⟩

/-- reverseServiceErrorBody is the decode outcome of a reverse response
that decodes successfully and carries embedded error code 704 with no
result fields. -/
def reverseServiceErrorBody : ReverseDecoded := ⟨none, Result.zero, noValueError⟩

/-- reverseDoubleErrorBody is the decode outcome of a reverse response that
first populates embedded error code 704 and then fails decoding on a
malformed place id, so both the decode error and the service error branch
fire in the goroutine. -/
def reverseDoubleErrorBody : ReverseDecoded :=
  ⟨some decodePlaceIdMsg, Result.zero, noValueError⟩

/-- ctxLive is a context that has not been cancelled. -/
def ctxLive : Ctx := ⟨false, CtxError.canceled⟩

/-- ctxDeadline is a context whose deadline has elapsed. -/
def ctxDeadline : Ctx := ⟨true, CtxError.deadlineExceeded⟩

/-- schedCtxFirst is the schedule in which the select resolves before any
goroutine send, picking the cancellation case. -/
def schedCtxFirst : Sched := ⟨0, Choice.ctxDone⟩

/-! ## Claims about the executor and classifier -/

/-- C1 (code bug): for a reverse response that decodes successfully and
carries embedded error code 704, the goroutine sends the service error and
then — the source has no `return` after `errChan <- result.Error` — also
sends the zero-valued result; both capacity-1 sends can complete before the
select resolves, and the select then picks uniformly among ready cases, so
the schedule picking the result channel makes Reverse return the
zero-valued Result with a nil error.  The service-error outcome the claim
requires is merely one of the two reachable outcomes.  The repo's own test
for the `error.code = 704` payload expects an error. -/
theorem C1_reverse_embedded_error_can_return_success :
    reverseServiceErrorBody.decodeErr = none ∧
    reverseServiceErrorBody.errObj.Code = 704 ∧
    Reverse (NewReverseQuery ("38.69") ("-9.32"))
        (Except.ok reverseServiceErrorBody) ctxLive ⟨2, Choice.res⟩ =
      some (Result.zero, none) ∧
    Reverse (NewReverseQuery ("38.69") ("-9.32"))
        (Except.ok reverseServiceErrorBody) ctxLive ⟨1, Choice.err⟩ =
      some (Result.zero, some (GoError.service noValueError)) :=
  ⟨rfl, rfl, rfl, rfl⟩

/-- C2 (code bug): for a search response whose body is a bare JSON object,
`json.Decode` fails, the goroutine sends the decode error and then — no
`return` after `errChan <- err` — also sends the empty results slice; the
schedule in which both sends complete and the select picks the result
channel makes Search return an empty slice with a nil error, a success
outcome, where the claim requires the decode failure.  The decode-failure
outcome is merely one of the two reachable outcomes. -/
theorem C2_search_decode_failure_can_return_success :
    searchEmptyObjectBody.decodeErr = some decodeObjectIntoSliceMsg ∧
    Search NewSearchQuery (Except.ok searchEmptyObjectBody) ctxLive
        ⟨2, Choice.res⟩ = some ([], none) ∧
    Search NewSearchQuery (Except.ok searchEmptyObjectBody) ctxLive
        ⟨1, Choice.err⟩ = some ([], some (GoError.decode decodeObjectIntoSliceMsg)) :=
  ⟨rfl, rfl, rfl⟩

/-- C3: for each of the three operations, if the cancellation signal fires
before the goroutine delivers any outcome, every resolvable schedule
returns the context's own error with the zero value — never a network
outcome — regardless of the transport outcome the still-running goroutine
will later deliver. -/
theorem C3_cancellation_wins (qS : SearchQuery) (qR : ReverseQuery)
    (tS : Except String SearchDecoded) (tR : Except String ReverseDecoded)
    (tSt : Except String StatusDecoded) (ctx : Ctx) (s : Sched)
    (hDone : ctx.isDone = true) (hk : s.k = 0) :
    (Search qS tS ctx s = none ∨
      Search qS tS ctx s = some ([], some (GoError.ctxErr ctx.ctxErrVal))) ∧
    (Reverse qR tR ctx s = none ∨
      Reverse qR tR ctx s =
        some (Result.zero, some (GoError.ctxErr ctx.ctxErrVal))) ∧
    (CheckStatus tSt ctx s = none ∨
      CheckStatus tSt ctx s =
        some (Status.zero, some (GoError.ctxErr ctx.ctxErrVal))) :=
  ⟨selectReturn_k_zero (searchSends tS) [] ctx s hDone hk,
   selectReturn_k_zero (reverseSends tR) Result.zero ctx s hDone hk,
   selectReturn_k_zero (statusSends tSt) Status.zero ctx s hDone hk⟩

/-- C3 witness: an expired-deadline context beats a slow transport for all
three operations. -/
theorem C3_witness :
    ctxDeadline.isDone = true ∧ schedCtxFirst.k = 0 ∧
    (Search NewSearchQuery (Except.error transportRefused) ctxDeadline
        schedCtxFirst = none ∨
      Search NewSearchQuery (Except.error transportRefused) ctxDeadline
        schedCtxFirst =
        some ([], some (GoError.ctxErr CtxError.deadlineExceeded))) ∧
    (Reverse (NewReverseQuery ("38.69") ("-9.32")) (Except.error transportRefused)
        ctxDeadline schedCtxFirst = none ∨
      Reverse (NewReverseQuery ("38.69") ("-9.32")) (Except.error transportRefused)
        ctxDeadline schedCtxFirst =
        some (Result.zero, some (GoError.ctxErr CtxError.deadlineExceeded))) ∧
    (CheckStatus (Except.error transportRefused) ctxDeadline schedCtxFirst = none ∨
      CheckStatus (Except.error transportRefused) ctxDeadline schedCtxFirst =
        some (Status.zero, some (GoError.ctxErr CtxError.deadlineExceeded))) :=
  ⟨rfl, rfl,
    (C3_cancellation_wins NewSearchQuery (NewReverseQuery ("38.69") ("-9.32"))
      (Except.error transportRefused) (Except.error transportRefused)
      (Except.error transportRefused) ctxDeadline schedCtxFirst rfl rfl).1,
    (C3_cancellation_wins NewSearchQuery (NewReverseQuery ("38.69") ("-9.32"))
      (Except.error transportRefused) (Except.error transportRefused)
      (Except.error transportRefused) ctxDeadline schedCtxFirst rfl rfl).2.1,
    (C3_cancellation_wins NewSearchQuery (NewReverseQuery ("38.69") ("-9.32"))
      (Except.error transportRefused) (Except.error transportRefused)
      (Except.error transportRefused) ctxDeadline schedCtxFirst rfl rfl).2.2⟩

/-- C4 (code bug): a reverse response that both populates embedded error
code 704 and then fails decoding makes the goroutine attempt two sends on
the capacity-1 error channel (decode error, then service error, the source
lacking a `return` between them).  When cancellation has already won the
race nothing ever receives, so the second send blocks the goroutine
forever, contradicting the claim that the background task can always
deposit without blocking.  For contrast, the search goroutine on a decode
failure sends on two distinct channels and completes. -/
theorem C4_reverse_worker_can_block_forever :
    reverseSends (Except.ok reverseDoubleErrorBody) =
      [Send.err (GoError.decode decodePlaceIdMsg),
        Send.err (GoError.service noValueError), Send.res Result.zero] ∧
    sendsCompleteUnread (reverseSends (Except.ok reverseDoubleErrorBody))
        false false = false ∧
    sendsCompleteUnread (searchSends (Except.ok searchEmptyObjectBody))
        false false = true :=
  ⟨rfl, rfl, rfl⟩

/-- C9: whenever any of the three operations returns a non-nil error under
any schedule, the accompanying value is the zero value of its result type:
the nil slice for Search, the zero Result for Reverse, the zero Status for
CheckStatus. -/
theorem C9_error_implies_zero_value (qS : SearchQuery) (qR : ReverseQuery)
    (tS : Except String SearchDecoded) (tR : Except String ReverseDecoded)
    (tSt : Except String StatusDecoded) (ctx : Ctx) (s : Sched)
    (vS : List Result) (vR : Result) (vSt : Status) (eS eR eSt : GoError) :
    (Search qS tS ctx s = some (vS, some eS) → vS = []) ∧
    (Reverse qR tR ctx s = some (vR, some eR) → vR = Result.zero) ∧
    (CheckStatus tSt ctx s = some (vSt, some eSt) → vSt = Status.zero) :=
  ⟨fun h => selectReturn_error_zero (searchSends tS) [] ctx s vS eS h,
   fun h => selectReturn_error_zero (reverseSends tR) Result.zero ctx s vR eR h,
   fun h => selectReturn_error_zero (statusSends tSt) Status.zero ctx s vSt eSt h⟩

/-- C9 witness: a transport failure surfaced through the error channel
carries the zero value for each operation. -/
theorem C9_witness :
    Search NewSearchQuery (Except.error transportRefused) ctxLive
        ⟨1, Choice.err⟩ = some ([], some (GoError.transport transportRefused)) ∧
    ([] : List Result) = [] ∧
    Reverse (NewReverseQuery ("38.69") ("-9.32")) (Except.error transportRefused)
        ctxLive ⟨1, Choice.err⟩ =
      some (Result.zero, some (GoError.transport transportRefused)) ∧
    Result.zero = Result.zero ∧
    CheckStatus (Except.error transportRefused) ctxLive ⟨1, Choice.err⟩ =
      some (Status.zero, some (GoError.transport transportRefused)) ∧
    Status.zero = Status.zero :=
  ⟨rfl,
    (C9_error_implies_zero_value NewSearchQuery (NewReverseQuery ("38.69") ("-9.32"))
      (Except.error transportRefused) (Except.error transportRefused)
      (Except.error transportRefused) ctxLive ⟨1, Choice.err⟩ [] Result.zero
      Status.zero (GoError.transport transportRefused)
      (GoError.transport transportRefused)
      (GoError.transport transportRefused)).1 rfl,
    rfl,
    (C9_error_implies_zero_value NewSearchQuery (NewReverseQuery ("38.69") ("-9.32"))
      (Except.error transportRefused) (Except.error transportRefused)
      (Except.error transportRefused) ctxLive ⟨1, Choice.err⟩ [] Result.zero
      Status.zero (GoError.transport transportRefused)
      (GoError.transport transportRefused)
      (GoError.transport transportRefused)).2.1 rfl,
    rfl,
    (C9_error_implies_zero_value NewSearchQuery (NewReverseQuery ("38.69") ("-9.32"))
      (Except.error transportRefused) (Except.error transportRefused)
      (Except.error transportRefused) ctxLive ⟨1, Choice.err⟩ [] Result.zero
      Status.zero (GoError.transport transportRefused)
      (GoError.transport transportRefused)
      (GoError.transport transportRefused)).2.2 rfl⟩

/-- C10: every ReverseQuery, including one with empty coordinate strings,
always has the lat and lon keys emitted, carrying the caller's strings
verbatim; empty coordinates yield an empty-valued parameter, never omission
and never a client-side error. -/
theorem C10_lat_lon_always_emitted :
    ∀ q : ReverseQuery,
      (q.buildQueryValues).get keyLatitude = some q.Latitude ∧
      (q.buildQueryValues).get keyLongitude = some q.Longitude := by
  intro q
  constructor <;>
    simp [ReverseQuery.buildQueryValues, Values.get, Values.get_ite,
      Values.get_set_self, Values.get_set_ne, keyFormat, keyLatitude,
      keyLongitude, keyAddressDetails, keyExtraTags, keyNameDetails,
      keyAcceptLanguage]

end Nominatim
